import Mathlib

/-!
Shallow embedding of the expectation-validation core of the `great_expectations`
repository snapshot under verification:

* `great_expectations/expectations/expectation.py`
  (`ColumnMapDatasetExpectation.validate_configuration`,
  `ColumnMapDatasetExpectation.get_validation_dependencies`,
  `ColumnMapDatasetExpectation._validate`, `_format_map_output`),
* `great_expectations/expectations/metrics/column_map_metrics/column_value_lengths_between.py`,
* `great_expectations/expectations/metrics/non_boolean_map_metrics/column_value_lengths.py`,
* `great_expectations/expectations/core/expect_column_value_lengths_to_be_between.py`
  (`validate_configuration`).

Python numbers are modelled by `ℚ` (the concrete divisions appearing in the
claims are exact in IEEE-754 float arithmetic as well), absent dictionary keys
and Python `None` by `Option`, and raised exceptions by `Except PyErr`.
-/

/-- Python exceptions raised by the embedded code.  `unknownResultFormat` is the
`ValueError("Unknown result_format ...")` raised at the end of
`_format_map_output` (the spec's `UnknownResultFormatError`);
`invalidConfiguration` is `InvalidExpectationConfigurationError`;
`valueError` is the plain `ValueError("Invalid configuration")` of
`ColumnValuesValueLengthsBetween._pandas`. -/
inductive PyErr where
  | typeError
  | keyError
  | invalidConfiguration
  | valueError
  | unknownResultFormat
deriving DecidableEq

/-- A Python value appearing in an unexpected-values list: an int, a string, or
an (unhashable) list value. -/
inductive Val where
  | int (z : ℤ)
  | str (s : String)
  | vlist (l : List ℤ)
deriving DecidableEq

/-- Whether `hash(v)` succeeds in Python: lists are unhashable. -/
def pyHashable : Val → Bool
  | .vlist _ => false
  | _ => true

/-- Python `<` on values: defined within ints and within strings; comparing an
int with a str (or anything with a list, which cannot occur after the
hashability check) raises `TypeError`, recorded here by `valComparable`. -/
def valLtB : Val → Val → Bool
  | .int a, .int b => decide (a < b)
  | .str a, .str b => decide (a < b)
  | _, _ => false

/-- Whether Python can order the two values (`<` does not raise `TypeError`). -/
def valComparable : Val → Val → Bool
  | .int _, .int _ => true
  | .str _, .str _ => true
  | _, _ => false

/-- Distinct elements of the first list in first-occurrence order, skipping the
`seen` accumulator: the key order of a Python dict/`Counter` built from the
list. -/
def firstOccursAux : List Val → List Val → List Val
  | [], _ => []
  | v :: vs, seen =>
    if v ∈ seen then firstOccursAux vs seen else v :: firstOccursAux vs (v :: seen)

/-- `Counter(l).items()`: distinct values in insertion order, each with its
multiplicity in `l`. -/
def counterItems (l : List Val) : List (Val × ℕ) :=
  (firstOccursAux l []).map (fun v => (v, l.count v))

/-- The order used by `Counter.most_common` (`heapq.nlargest` keyed on the
count): count descending, stable. -/
def countGe (a b : Val × ℕ) : Prop := b.2 ≤ a.2

instance : DecidableRel countGe := fun a b => inferInstanceAs (Decidable (b.2 ≤ a.2))

instance : IsTotal (Val × ℕ) countGe := ⟨fun x y => Nat.le_total y.2 x.2⟩

instance : IsTrans (Val × ℕ) countGe := ⟨fun _ _ _ h1 h2 => Nat.le_trans h2 h1⟩

/-- `Counter(l).most_common(k)`: the `(value, count)` pairs sorted by count
descending (stable in insertion order, as `heapq.nlargest` is documented to be
equivalent to `sorted(...)[:n]`), truncated to `k`. -/
def mostCommon (l : List Val) (k : ℕ) : List (Val × ℕ) :=
  (List.insertionSort countGe (counterItems l)).take k

/-- Python `<` on the sort key `(-count, value)` used by
`sorted(..., key=lambda x: (-x[1], x[0]))`: lexicographic, with the value part
compared only when the counts tie. -/
def keyLtB (x y : Val × ℕ) : Bool :=
  decide (y.2 < x.2) || (decide (x.2 = y.2) && valLtB x.1 y.1)

/-- The non-strict companion of `keyLtB`: `x` may stand no later than `y`. -/
def keyLe (x y : Val × ℕ) : Prop := keyLtB y x = false

instance : DecidableRel keyLe := fun x y => inferInstanceAs (Decidable (keyLtB y x = false))

/-- Whether `sorted` would have to compare two order-incomparable values: a pair
of distinct entries with equal counts whose values Python cannot order.  On such
input `sorted` raises `TypeError` (any correct sort must order the tied group by
comparing the value components). -/
def anyIncomparableTie (l : List (Val × ℕ)) : Bool :=
  l.any (fun x => l.any (fun y =>
    decide (x.2 = y.2) && decide (x.1 ≠ y.1) && ! valComparable x.1 y.1))

/-- The value of the `partial_unexpected_counts` result field: either the list
of `{value, count}` entries, or the single sentinel entry
`"partial_exception_counts requires a hashable type"` substituted when the
`try` block raises `TypeError`. -/
inductive PUC where
  | entries (l : List (Val × ℕ))
  | sentinel
deriving DecidableEq

/-- The `try/except TypeError` block of `_format_map_output` computing
`partial_unexpected_counts`: `Counter` raises on an unhashable value, `sorted`
raises on an incomparable tie; both are absorbed into the sentinel entry. -/
def partial_unexpected_counts_of (l : List Val) (k : ℕ) : PUC :=
  if l.all pyHashable then
    if anyIncomparableTie (mostCommon l k) then PUC.sentinel
    else PUC.entries (List.insertionSort keyLe (mostCommon l k))
  else PUC.sentinel

/-- The result object built by `_format_map_output`.  The outer `Option` on a
field is presence of the dictionary key; a nested `Option` is a present key
whose value may be Python `None`.  `success` is always present and nullable. -/
structure MapResult where
  success : Option Bool := none
  element_count : Option ℚ := none
  unexpected_count : Option (Option ℚ) := none
  unexpected_percent : Option (Option ℚ) := none
  partial_unexpected_list : Option (List Val) := none
  missing_count : Option ℚ := none
  missing_percent : Option (Option ℚ) := none
  unexpected_percent_nonmissing : Option (Option ℚ) := none
  partial_unexpected_index_list : Option (Option (List ℕ)) := none
  partial_unexpected_counts : Option PUC := none
  unexpected_list : Option (List Val) := none
  unexpected_index_list : Option (Option (List ℕ)) := none
deriving DecidableEq

/-- A parsed result format: the tier name and the `partial_unexpected_count`
cap. -/
structure ResultFormat where
  result_format : String
  partial_unexpected_count : ℕ
deriving DecidableEq

/-- The fields added at the BASIC tier (`return_obj["result"] = {...}` plus the
`if not skip_missing` block of `_format_map_output`).  `skip_missing` is true
exactly when `nonnull_count is None`; `missing_count = element_count -
nonnull_count`; percents are `None` when `element_count` is `0`;
`unexpected_percent_nonmissing` is additionally `None` when `nonnull_count` is
`0`. -/
def basic_result (cap : ℕ) (success : Option Bool) (ec : ℚ)
    (nonnull_count unexpected_count : Option ℚ) (ul : List Val) : MapResult :=
  let skip_missing := nonnull_count.isNone
  let missing_count : Option ℚ := nonnull_count.map (fun nn => ec - nn)
  let unexpected_percent : Option ℚ :=
    if 0 < ec then unexpected_count.map (fun u => u / ec * 100) else none
  let missing_percent : Option ℚ :=
    if 0 < ec then missing_count.map (fun mc => mc / ec * 100) else none
  let unexpected_percent_nonmissing : Option ℚ :=
    if 0 < ec then
      nonnull_count.bind (fun nn =>
        if 0 < nn then unexpected_count.map (fun u => u / nn * 100) else none)
    else none
  { success := success
    element_count := some ec
    unexpected_count := some unexpected_count
    unexpected_percent := some unexpected_percent
    partial_unexpected_list := some (ul.take cap)
    missing_count := if skip_missing then none else missing_count
    missing_percent := if skip_missing then none else some missing_percent
    unexpected_percent_nonmissing :=
      if skip_missing then none else some unexpected_percent_nonmissing }

/-- The fields added at the SUMMARY tier, gated on a positive cap:
`partial_unexpected_index_list` (the index list truncated to the cap, or a
present-but-`None` value when the index list is `None`) and
`partial_unexpected_counts`. -/
def summary_extend (cap : ℕ) (r : MapResult) (ul : List Val)
    (il : Option (List ℕ)) : MapResult :=
  if 0 < cap then
    { r with
      partial_unexpected_index_list := some (il.map (fun ixs => ixs.take cap))
      partial_unexpected_counts := some (partial_unexpected_counts_of ul cap) }
  else r

/-- The fields added at the COMPLETE tier: the full `unexpected_list` and the
(possibly `None`) `unexpected_index_list`. -/
def complete_extend (r : MapResult) (ul : List Val)
    (il : Option (List ℕ)) : MapResult :=
  { r with
    unexpected_list := some ul
    unexpected_index_list := some il }

/-- `_format_map_output` (expectation.py lines 622-730).  Checks the tier name
after each block, exactly as the Python early returns do.  `element_count` and
`unexpected_list` being `None` raises `TypeError` past BOOLEAN_ONLY (they flow
into `element_count > 0` and `unexpected_list[:cap]`); a `None`
`unexpected_count` raises `TypeError` when `element_count > 0` (it flows into
the `unexpected_percent` division).  All these Python `TypeError`s are mapped
to the single `.typeError`, so the sequencing among them is immaterial. -/
def format_map_output (rf : ResultFormat) (success : Option Bool)
    (element_count nonnull_count unexpected_count : Option ℚ)
    (unexpected_list : Option (List Val)) (unexpected_index_list : Option (List ℕ)) :
    Except PyErr MapResult :=
  if rf.result_format = "BOOLEAN_ONLY" then .ok { success := success }
  else
    match element_count, unexpected_list with
    | some ec, some ul =>
      if 0 < ec ∧ unexpected_count = none then .error .typeError
      else if rf.result_format = "BASIC" then
        .ok (basic_result rf.partial_unexpected_count success ec nonnull_count
          unexpected_count ul)
      else if rf.result_format = "SUMMARY" then
        .ok (summary_extend rf.partial_unexpected_count
          (basic_result rf.partial_unexpected_count success ec nonnull_count
            unexpected_count ul) ul unexpected_index_list)
      else if rf.result_format = "COMPLETE" then
        .ok (complete_extend
          (summary_extend rf.partial_unexpected_count
            (basic_result rf.partial_unexpected_count success ec nonnull_count
              unexpected_count ul) ul unexpected_index_list) ul unexpected_index_list)
      else .error .unknownResultFormat
    | _, _ => .error .typeError

/-- Modelled from the spec: `parse_result_format`
(`great_expectations/data_asset/util.py`, not under `src/`): wraps a tier-name
string into a result-format mapping with the default `partial_unexpected_count`
cap of 20 ("a `partial_unexpected_list` truncated to a configured cap (default
20)"). -/
def parse_result_format (s : String) : ResultFormat :=
  { result_format := s, partial_unexpected_count := 20 }

/-- The metrics dictionary passed to `ColumnMapDatasetExpectation._validate`:
`none` is an absent key (`metrics[k]` raises `KeyError`; `metrics.get(k)`
yields Python `None`). -/
structure ColumnMapMetrics where
  nonnull_unexpected_count : Option ℚ := none
  map_unexpected_count : Option ℚ := none
  table_row_count : Option ℚ := none
  map_unexpected_values : Option (List Val) := none
  map_unexpected_index_list : Option (List ℕ) := none

/-- `ColumnMapDatasetExpectation._validate` (expectation.py lines 540-585).
`result_format` resolves from the runtime configuration, then the expectation
kwargs, then the class default `"BASIC"`; `mostly` resolves from the success
kwargs with default `1`.  When the `column_values.nonnull.unexpected_count`
value is positive, `success = (1 - unexpected/nulls) >= mostly`, else `None`.
The `nonnull_count` argument of `_format_map_output` is
`metrics.get("table.row_count") - metrics.get("column_values.nonnull.unexpected_count")`,
evaluated eagerly before the call: Python raises `TypeError` here whenever
`table.row_count` was not resolved (`None - number`). -/
def column_map_validate (cfg_mostly : Option ℚ)
    (runtime_result_format cfg_result_format : Option String)
    (metrics : ColumnMapMetrics) : Except PyErr MapResult :=
  let result_format :=
    (runtime_result_format.orElse (fun _ => cfg_result_format)).getD "BASIC"
  let mostly := cfg_mostly.getD 1
  match metrics.nonnull_unexpected_count with
  | none => .error .keyError
  | some null_count =>
    let succ : Except PyErr (Option Bool) :=
      if 0 < null_count then
        match metrics.map_unexpected_count with
        | none => .error .keyError
        | some u => .ok (some (decide (1 - u / null_count ≥ mostly)))
      else .ok none
    match succ with
    | .error e => .error e
    | .ok success =>
      match metrics.table_row_count with
      | none => .error .typeError
      | some rc =>
        format_map_output (parse_result_format result_format) success
          metrics.table_row_count (some (rc - null_count))
          metrics.map_unexpected_count metrics.map_unexpected_values
          metrics.map_unexpected_index_list

/-- The backend capability of the resolved execution engine
(`isinstance(execution_engine, PandasExecutionEngine)` is the only branch the
source takes). -/
inductive Backend where
  | pandas
  | sqlalchemy
  | spark
deriving DecidableEq

/-- `ColumnMapDatasetExpectation.get_validation_dependencies` (expectation.py
lines 441-538), as the list of metric names added to the dependency dictionary
(each carries its metric kwargs; identity is the name here since all nodes of
one expectation share the configuration-derived kwargs).  The two base nodes
are always added; past BOOLEAN_ONLY, `table.row_count` and the
unexpected-values node; the function returns at BASIC and SUMMARY alike; past
those, the unexpected-rows node and, on the pandas engine only, the
unexpected-index-list node. -/
def column_map_validation_dependencies (map_metric : String)
    (result_format : String) (engine : Option Backend) : List String :=
  let base := ["column_values.nonnull.unexpected_count",
    map_metric ++ ".unexpected_count"]
  if result_format = "BOOLEAN_ONLY" then base
  else
    let basic := base ++ ["table.row_count", map_metric ++ ".unexpected_values"]
    if result_format = "BASIC" ∨ result_format = "SUMMARY" then basic
    else
      let complete := basic ++ [map_metric ++ ".unexpected_rows"]
      if engine = some Backend.pandas then
        complete ++ [map_metric ++ ".unexpected_index_list"]
      else complete

/-- A kwarg value as far as the `mostly` checks observe it: a number (Python
int or float) or anything non-numeric. -/
inductive KwargVal where
  | num (q : ℚ)
  | nonNumeric
deriving DecidableEq

/-- `ColumnMapDatasetExpectation.validate_configuration` (expectation.py lines
424-439), composed over `Expectation.validate_configuration` (the
expectation-type match).  Each failed assertion is re-raised as
`InvalidExpectationConfigurationError`. -/
def column_map_validate_configuration (type_matches column_present : Bool)
    (mostly : Option KwargVal) : Except PyErr Bool :=
  if !type_matches then .error .invalidConfiguration
  else if !column_present then .error .invalidConfiguration
  else
    match mostly with
    | none => .ok true
    | some KwargVal.nonNumeric => .error .invalidConfiguration
    | some (KwargVal.num q) =>
      if 0 ≤ q ∧ q ≤ 1 then .ok true else .error .invalidConfiguration

/-- Python truthiness of an optional number (`if kwargs.get("min_value"):`):
false for an absent key, `None`, and `0`. -/
def pyTruthyNum : Option ℚ → Bool
  | none => false
  | some q => decide (q ≠ 0)

/-- `ExpectColumnValueLengthsToBeBetween.validate_configuration`
(expect_column_value_lengths_to_be_between.py lines 105-127).  The first assert
is `kwargs.get("min_value") is not None or kwargs.get("max_value" != None)`:
the expression `"max_value" != None` is Python `True`, and `kwargs.get(True)`
is `None` on a string-keyed kwargs mapping, so the second disjunct is always
falsy and the assert reduces to `min_value is not None`.  The integer checks
run only on truthy values (`if kwargs.get("min_value"):`). -/
def value_lengths_between_validate_configuration (type_matches column_present : Bool)
    (mostly : Option KwargVal) (min_value max_value : Option ℚ) : Except PyErr Bool :=
  match column_map_validate_configuration type_matches column_present mostly with
  | .error e => .error e
  | .ok _ =>
    if min_value = none then .error .invalidConfiguration
    else if pyTruthyNum min_value && !(min_value.getD 0).isInt then
      .error .invalidConfiguration
    else if pyTruthyNum max_value && !(max_value.getD 0).isInt then
      .error .invalidConfiguration
    else .ok true

/-- `ColumnValuesValueLengths._pandas`
(non_boolean_map_metrics/column_value_lengths.py lines 19-21):
`column.astype(str).str.len()` over a string column is the per-row character
count. -/
def column_values_value_lengths (column : List String) : List ℕ :=
  column.map String.length

/-- `ColumnValuesValueLengthsBetween._pandas`
(column_map_metrics/column_value_lengths_between.py lines 21-66): the per-row
boolean condition series over the length series, `pandas.Series.between` with
`inclusive=True`/`False` for the doubly-bounded cases, single comparisons
otherwise, and `ValueError("Invalid configuration")` when both bounds are
absent. -/
def column_values_value_lengths_between (column_lengths : List ℕ)
    (min_value max_value : Option ℤ) (strict_min strict_max : Bool) :
    Except PyErr (List Bool) :=
  match min_value, max_value with
  | some mn, some mx =>
    if strict_min && strict_max then
      .ok (column_lengths.map (fun n => decide (mn < (n : ℤ) ∧ (n : ℤ) < mx)))
    else if strict_min && !strict_max then
      .ok (column_lengths.map (fun n => decide (mn < (n : ℤ) ∧ (n : ℤ) ≤ mx)))
    else if !strict_min && strict_max then
      .ok (column_lengths.map (fun n => decide (mn ≤ (n : ℤ) ∧ (n : ℤ) < mx)))
    else
      .ok (column_lengths.map (fun n => decide (mn ≤ (n : ℤ) ∧ (n : ℤ) ≤ mx)))
  | none, some mx =>
    if strict_max then .ok (column_lengths.map (fun n => decide ((n : ℤ) < mx)))
    else .ok (column_lengths.map (fun n => decide ((n : ℤ) ≤ mx)))
  | some mn, none =>
    if strict_min then .ok (column_lengths.map (fun n => decide (mn < (n : ℤ))))
    else .ok (column_lengths.map (fun n => decide (mn ≤ (n : ℤ))))
  | none, none => .error .valueError

/-- Modelled from the spec: the `.unexpected_count` metric derived from a map
condition series (the deriving machinery in
`great_expectations/expectations/metrics/column_map_metric.py` is not under
`src/`): "count of unexpected rows", the number of rows whose condition is
false. -/
def unexpected_count_of (conds : List Bool) : ℕ :=
  conds.count false

/-- The four verbosity tiers in their information order. -/
inductive Tier where
  | boolean_only
  | basic
  | summary
  | complete
deriving DecidableEq

/-- The result-format name of a tier. -/
def Tier.name : Tier → String
  | .boolean_only => "BOOLEAN_ONLY"
  | .basic => "BASIC"
  | .summary => "SUMMARY"
  | .complete => "COMPLETE"

/-- Position of a tier in the order BOOLEAN_ONLY ⊂ BASIC ⊂ SUMMARY ⊂ COMPLETE. -/
def Tier.idx : Tier → ℕ
  | .boolean_only => 0
  | .basic => 1
  | .summary => 2
  | .complete => 3

/-- Field refinement on optional fields: a key present on the left is present
with the same value on the right. -/
def fieldLe {α : Type} (a b : Option α) : Prop := a ≠ none → b = a

/-- Result refinement: every field present in `x` is present in `y` with the
same value (and `success`, always present, agrees). -/
def MapResult.le (x y : MapResult) : Prop :=
  x.success = y.success ∧
  fieldLe x.element_count y.element_count ∧
  fieldLe x.unexpected_count y.unexpected_count ∧
  fieldLe x.unexpected_percent y.unexpected_percent ∧
  fieldLe x.partial_unexpected_list y.partial_unexpected_list ∧
  fieldLe x.missing_count y.missing_count ∧
  fieldLe x.missing_percent y.missing_percent ∧
  fieldLe x.unexpected_percent_nonmissing y.unexpected_percent_nonmissing ∧
  fieldLe x.partial_unexpected_index_list y.partial_unexpected_index_list ∧
  fieldLe x.partial_unexpected_counts y.partial_unexpected_counts ∧
  fieldLe x.unexpected_list y.unexpected_list ∧
  fieldLe x.unexpected_index_list y.unexpected_index_list

theorem format_map_output_success {rf : ResultFormat} {s : Option Bool}
    {ec nn uc : Option ℚ} {ul : Option (List Val)} {il : Option (List ℕ)}
    {r : MapResult} (h : format_map_output rf s ec nn uc ul il = Except.ok r) :
    r.success = s := by
  unfold format_map_output at h
  split at h
  · injection h with h
    subst h
    rfl
  · split at h
    · split at h
      · exact absurd h (by simp)
      · split at h
        · injection h with h
          subst h
          simp [basic_result]
        · split at h
          · injection h with h
            subst h
            simp only [summary_extend]
            split <;> simp [basic_result]
          · split at h
            · injection h with h
              subst h
              simp only [complete_extend, summary_extend]
              split <;> simp [basic_result]
            · exact absurd h (by simp)
    · exact absurd h (by simp)

/-- C10: for every `ExpectColumnValueLengthsToBeBetween` configuration whose
`min_value` is absent or `None`, `validate_configuration` raises
`InvalidExpectationConfigurationError` even when a valid integer `max_value` is
supplied, because the second disjunct of the first assert evaluates
`kwargs.get("max_value" != None)`, i.e. `kwargs.get(True)`, which is always
falsy on the string-keyed kwargs mapping: a max_value-only configuration is
never accepted. -/
theorem max_value_only_configuration_rejected (type_matches column_present : Bool)
    (mostly : Option KwargVal) (max_value : Option ℚ) :
    value_lengths_between_validate_configuration type_matches column_present
      mostly none max_value = Except.error PyErr.invalidConfiguration := by
  unfold value_lengths_between_validate_configuration
  unfold column_map_validate_configuration
  cases type_matches with
  | false => rfl
  | true =>
    cases column_present with
    | false => rfl
    | true =>
      cases mostly with
      | none => rfl
      | some v =>
        cases v with
        | nonNumeric => rfl
        | num q =>
          by_cases hq : 0 ≤ q ∧ q ≤ 1 <;> simp [hq]

/-- C6: configuration-time validation of a column-map expectation accepts a
present `mostly` kwarg only when it is numeric and lies in `[0, 1]`; a
non-numeric or out-of-range `mostly` raises
`InvalidExpectationConfigurationError` (the check is a pure configuration
check: no metric is requested by it). -/
theorem mostly_validated_at_configuration (type_matches column_present : Bool) (q : ℚ) :
    column_map_validate_configuration type_matches column_present
        (some KwargVal.nonNumeric) = Except.error PyErr.invalidConfiguration ∧
    (¬(0 ≤ q ∧ q ≤ 1) →
      column_map_validate_configuration type_matches column_present
        (some (KwargVal.num q)) = Except.error PyErr.invalidConfiguration) ∧
    (column_map_validate_configuration type_matches column_present
        (some (KwargVal.num q)) = Except.ok true → 0 ≤ q ∧ q ≤ 1) := by
  unfold column_map_validate_configuration
  cases type_matches with
  | false => exact ⟨rfl, fun _ => rfl, fun h => absurd h (by simp)⟩
  | true =>
    cases column_present with
    | false => exact ⟨rfl, fun _ => rfl, fun h => absurd h (by simp)⟩
    | true =>
      refine ⟨rfl, fun hq => by simp [hq], fun h => ?_⟩
      by_cases hq : 0 ≤ q ∧ q ≤ 1
      · exact hq
      · simp [hq] at h

/-- Witness for C6 at `type_matches = true`, `column_present = true`,
`mostly = 2`. -/
theorem mostly_validated_at_configuration_witness :
    column_map_validate_configuration true true (some (KwargVal.num 2)) =
      Except.error PyErr.invalidConfiguration :=
  (mostly_validated_at_configuration true true 2).2.1 (by norm_num)

/-- C2 counterexample: at the SUMMARY tier on the pandas backend the
dependency set does not contain the unexpected-index-list node, contrary to
the claim's SUMMARY clause. -/
theorem summary_unexpected_index_list_not_requested :
    ¬ ("column_values.foo.unexpected_index_list" ∈
        column_map_validation_dependencies "column_values.foo" "SUMMARY"
          (some Backend.pandas)) := by
  decide

/-- C2 amended: the dependency set of a column-map expectation is gated as
follows: BOOLEAN_ONLY yields exactly the two base nodes; BASIC adds the
row-count node and the unexpected-values node; SUMMARY adds exactly the same
nodes as BASIC (no unexpected-index-list node is requested at SUMMARY);
COMPLETE adds the unexpected-rows node and, on the pandas backend only, the
unexpected-index-list node. -/
theorem validation_dependencies_by_tier (map_metric : String) (engine : Option Backend) :
    column_map_validation_dependencies map_metric "BOOLEAN_ONLY" engine =
      ["column_values.nonnull.unexpected_count", map_metric ++ ".unexpected_count"] ∧
    column_map_validation_dependencies map_metric "BASIC" engine =
      ["column_values.nonnull.unexpected_count", map_metric ++ ".unexpected_count",
        "table.row_count", map_metric ++ ".unexpected_values"] ∧
    column_map_validation_dependencies map_metric "SUMMARY" engine =
      column_map_validation_dependencies map_metric "BASIC" engine ∧
    column_map_validation_dependencies map_metric "COMPLETE" engine =
      (["column_values.nonnull.unexpected_count", map_metric ++ ".unexpected_count",
        "table.row_count", map_metric ++ ".unexpected_values",
        map_metric ++ ".unexpected_rows"] ++
        if engine = some Backend.pandas then [map_metric ++ ".unexpected_index_list"]
        else []) := by
  refine ⟨by simp [column_map_validation_dependencies], by simp [column_map_validation_dependencies], by simp [column_map_validation_dependencies], ?_⟩
  by_cases he : engine = some Backend.pandas <;>
    simp [column_map_validation_dependencies, he]

/-- C3: validating a column-map expectation at BOOLEAN_ONLY with exactly the
metrics its BOOLEAN_ONLY dependency set resolves (the two base counts) raises
`TypeError`: `_validate` eagerly computes
`metrics.get("table.row_count") - metrics.get("column_values.nonnull.unexpected_count")`,
and `table.row_count` is absent, so Python evaluates `None - 10`.  The result
formatter itself, by contrast, does return exactly `{success}` at
BOOLEAN_ONLY, with every other field absent, for all inputs. -/
theorem boolean_only_validate_raises_typeerror :
    column_map_validate (some (8/10)) none (some "BOOLEAN_ONLY")
      { nonnull_unexpected_count := some 10, map_unexpected_count := some 2 } =
      Except.error PyErr.typeError ∧
    ∀ (cap : ℕ) (s : Option Bool) (ec nn uc : Option ℚ) (ul : Option (List Val))
      (il : Option (List ℕ)),
      format_map_output { result_format := "BOOLEAN_ONLY", partial_unexpected_count := cap }
        s ec nn uc ul il = Except.ok { success := s } := by
  constructor
  · unfold column_map_validate
    norm_num
  · intro cap s ec nn uc ul il
    unfold format_map_output
    simp

/-- C7: for every verbosity name outside the four recognized tiers, the result
formatter (on inputs that do not already make Python raise `TypeError`: a
numeric `element_count`, a list `unexpected_list`, and a numeric
`unexpected_count` whenever `element_count > 0`) fails with the
unknown-result-format error and returns no result object. -/
theorem unknown_result_format_raises (name : String) (cap : ℕ) (s : Option Bool)
    (ec : ℚ) (nn uc : Option ℚ) (ul : List Val) (il : Option (List ℕ))
    (hname : name ≠ "BOOLEAN_ONLY" ∧ name ≠ "BASIC" ∧ name ≠ "SUMMARY" ∧
      name ≠ "COMPLETE")
    (huc : 0 < ec → uc ≠ none) :
    format_map_output { result_format := name, partial_unexpected_count := cap }
      s (some ec) nn uc (some ul) il = Except.error PyErr.unknownResultFormat := by
  obtain ⟨h1, h2, h3, h4⟩ := hname
  unfold format_map_output
  simp only [h1, h2, h3, h4, if_false]
  rw [if_neg]
  rintro ⟨hec, hnone⟩
  exact huc hec hnone

/-- Witness for C7 at the verbosity value `"WEIRD"`. -/
theorem unknown_result_format_raises_witness :
    format_map_output { result_format := "WEIRD", partial_unexpected_count := 20 }
      (some true) (some 4) (some 4) (some 1) (some []) none =
      Except.error PyErr.unknownResultFormat :=
  unknown_result_format_raises "WEIRD" 20 (some true) 4 (some 4) (some 1) [] none
    (by refine ⟨?_, ?_, ?_, ?_⟩ <;> decide) (fun _ h => by simp at h)

/-- C1: for a column-map validation with resolved metrics, letting `nulls` be
the resolved `column_values.nonnull.unexpected_count` value (the divisor of the
source), when `nulls > 0` the reported success is
`(1 - unexpected/nulls) >= mostly`, and when `nulls = 0` success is null; at
divisor 10 and unexpected 2, `mostly = 0.8` yields success true and
`mostly = 0.81` yields success false. -/
theorem column_map_success_formula :
    (∀ (mostly null_count u rc : ℚ) (ul : List Val) (rrf crf : Option String)
        (r : MapResult),
        0 < null_count →
        column_map_validate (some mostly) rrf crf
          { nonnull_unexpected_count := some null_count,
            map_unexpected_count := some u, table_row_count := some rc,
            map_unexpected_values := some ul } = Except.ok r →
        r.success = some (decide (1 - u / null_count ≥ mostly))) ∧
    (∀ (mostly u rc : ℚ) (ul : List Val) (rrf crf : Option String) (r : MapResult),
        column_map_validate (some mostly) rrf crf
          { nonnull_unexpected_count := some 0, map_unexpected_count := some u,
            table_row_count := some rc, map_unexpected_values := some ul } =
          Except.ok r →
        r.success = none) ∧
    ((column_map_validate (some (8/10)) none none
        { nonnull_unexpected_count := some 10, map_unexpected_count := some 2,
          table_row_count := some 10, map_unexpected_values := some [] }).map
        (fun r => r.success) = Except.ok (some true)) ∧
    ((column_map_validate (some (81/100)) none none
        { nonnull_unexpected_count := some 10, map_unexpected_count := some 2,
          table_row_count := some 10, map_unexpected_values := some [] }).map
        (fun r => r.success) = Except.ok (some false)) := by
  refine ⟨?_, ?_, ?_, ?_⟩
  · intro mostly null_count u rc ul rrf crf r hpos h
    unfold column_map_validate at h
    dsimp only at h
    rw [if_pos hpos] at h
    exact format_map_output_success h
  · intro mostly u rc ul rrf crf r h
    unfold column_map_validate at h
    dsimp only at h
    rw [if_neg (lt_irrefl (0 : ℚ))] at h
    exact format_map_output_success h
  · simp only [column_map_validate, parse_result_format, format_map_output,
      basic_result]
    norm_num [show ("BASIC" : String) ≠ "BOOLEAN_ONLY" from by decide,
      Option.some_ne_none, Except.map]
  · simp only [column_map_validate, parse_result_format, format_map_output,
      basic_result]
    norm_num [show ("BASIC" : String) ≠ "BOOLEAN_ONLY" from by decide,
      Option.some_ne_none, Except.map]

/-- Witness for C1: the general formula applied at divisor 10, unexpected 2,
`mostly = 0.8`, recovering the success value of the concrete run. -/
theorem column_map_success_formula_witness :
    ∃ r : MapResult,
      column_map_validate (some (8/10)) none none
        { nonnull_unexpected_count := some 10, map_unexpected_count := some 2,
          table_row_count := some 10, map_unexpected_values := some [] } =
        Except.ok r ∧ r.success = some (decide ((1 : ℚ) - 2 / 10 ≥ 8 / 10)) := by
  have hrun : ∃ r : MapResult,
      column_map_validate (some (8/10)) none none
        { nonnull_unexpected_count := some 10, map_unexpected_count := some 2,
          table_row_count := some 10, map_unexpected_values := some [] } =
        Except.ok r := by
    simp only [column_map_validate, parse_result_format, format_map_output,
      basic_result]
    norm_num [show ("BASIC" : String) ≠ "BOOLEAN_ONLY" from by decide,
      Option.some_ne_none, Except.map]
  obtain ⟨r, hr⟩ := hrun
  exact ⟨r, hr, column_map_success_formula.1 (8/10) 10 2 10 [] none none r
    (by norm_num) hr⟩

/-- C4 counterexample: with the count of values to evaluate
(`column_values.nonnull.unexpected_count`) equal to `0`, row count `5`, the
validation reports null success as claimed, but the BASIC-tier result contains
`missing_count` and `missing_percent` (here `0` and `0.0`) instead of omitting
them; likewise the formatter called directly with `nonnull_count = 0` includes
`missing_count = 5` and `missing_percent = 100.0`. -/
theorem undefined_case_counterexample :
    (column_map_validate none none none
        { nonnull_unexpected_count := some 0, map_unexpected_count := some 0,
          table_row_count := some 5, map_unexpected_values := some [] }).map
        (fun r => (r.success, r.missing_count, r.missing_percent)) =
      Except.ok (none, some 0, some (some 0)) ∧
    (format_map_output { result_format := "BASIC", partial_unexpected_count := 20 }
        (some true) (some 5) (some 0) (some 0) (some []) none).map
        (fun r => (r.missing_count, r.missing_percent)) =
      Except.ok (some 5, some (some 100)) := by
  constructor
  · simp only [column_map_validate, parse_result_format, format_map_output,
      basic_result]
    norm_num [show ("BASIC" : String) ≠ "BOOLEAN_ONLY" from by decide,
      Option.some_ne_none, Except.map]
  · simp only [format_map_output, basic_result]
    norm_num [show ("BASIC" : String) ≠ "BOOLEAN_ONLY" from by decide,
      Option.some_ne_none, Except.map]

/-- C4 amended: when the `column_values.nonnull.unexpected_count` metric (the
count of values to evaluate, the divisor of the success ratio) is `0`, success
is null; but `missing_count`/`missing_percent` are omitted exactly when the
formatter's `nonnull_count` input is unknown (`None`) — through `_validate`
that input is always the number `row_count - nonnull.unexpected_count`, and a
numeric `nonnull_count`, including `0`, yields both fields present with
`missing_count = element_count - nonnull_count`. -/
theorem missing_fields_gated_on_unknown :
    (∀ (cfg : Option ℚ) (rrf crf : Option String) (m : ColumnMapMetrics)
        (r : MapResult),
        m.nonnull_unexpected_count = some 0 →
        column_map_validate cfg rrf crf m = Except.ok r → r.success = none) ∧
    (∀ (rf : ResultFormat) (s : Option Bool) (ec uc : Option ℚ)
        (ul : Option (List Val)) (il : Option (List ℕ)) (r : MapResult),
        format_map_output rf s ec none uc ul il = Except.ok r →
        r.missing_count = none ∧ r.missing_percent = none) ∧
    (∀ (cap : ℕ) (s : Option Bool) (ec nn : ℚ) (uc : Option ℚ) (ul : List Val)
        (il : Option (List ℕ)) (r : MapResult),
        format_map_output { result_format := "BASIC", partial_unexpected_count := cap }
          s (some ec) (some nn) uc (some ul) il = Except.ok r →
        r.missing_count = some (ec - nn) ∧ ∃ mp, r.missing_percent = some mp) := by
  refine ⟨?_, ?_, ?_⟩
  · intro cfg rrf crf m r hm h
    unfold column_map_validate at h
    rw [hm] at h
    dsimp only at h
    rw [if_neg (lt_irrefl (0 : ℚ))] at h
    dsimp only at h
    cases hrc : m.table_row_count with
    | none =>
      rw [hrc] at h
      exact absurd h (by simp)
    | some rc =>
      rw [hrc] at h
      dsimp only at h
      exact format_map_output_success h
  · intro rf s ec uc ul il r h
    unfold format_map_output at h
    split at h
    · injection h with h
      subst h
      exact ⟨rfl, rfl⟩
    · split at h
      · split at h
        · exact absurd h (by simp)
        · split at h
          · injection h with h
            subst h
            simp [basic_result]
          · split at h
            · injection h with h
              subst h
              simp only [summary_extend]
              split <;> simp [basic_result]
            · split at h
              · injection h with h
                subst h
                simp only [complete_extend, summary_extend]
                split <;> simp [basic_result]
              · exact absurd h (by simp)
      · exact absurd h (by simp)
  · intro cap s ec nn uc ul il r h
    unfold format_map_output at h
    rw [if_neg (by decide : ¬ ("BASIC" : String) = "BOOLEAN_ONLY")] at h
    dsimp only at h
    split at h
    · exact absurd h (by simp)
    · rw [if_pos rfl] at h
      injection h with h
      subst h
      refine ⟨by simp [basic_result], ?_⟩
      exact ⟨if 0 < ec then some ((ec - nn) / ec * 100) else none,
        by simp [basic_result]⟩

/-- Witness for C4's amended statement: the BASIC run of the counterexample,
with `nonnull_count = 0`, carries `missing_count = 5 - 0`. -/
theorem missing_fields_gated_on_unknown_witness :
    ∃ r : MapResult,
      format_map_output { result_format := "BASIC", partial_unexpected_count := 20 }
        (some true) (some 5) (some 0) (some 0) (some []) none = Except.ok r ∧
      r.missing_count = some ((5 : ℚ) - 0) ∧ ∃ mp, r.missing_percent = some mp := by
  have hrun : ∃ r : MapResult,
      format_map_output { result_format := "BASIC", partial_unexpected_count := 20 }
        (some true) (some 5) (some 0) (some 0) (some []) none = Except.ok r := by
    simp only [format_map_output, basic_result]
    norm_num [show ("BASIC" : String) ≠ "BOOLEAN_ONLY" from by decide,
      Option.some_ne_none]
  obtain ⟨r, hr⟩ := hrun
  exact ⟨r, hr, missing_fields_gated_on_unknown.2.2 20 (some true) 5 0 (some 0) []
    none r hr⟩

/-- C9: the length metric over `["a","bb","ccc","dddd"]` is `[1,2,3,4]`; the
between condition with `min_value=1, max_value=3, strict_min=false,
strict_max=false` is inclusive on both bounds and yields
`[true,true,true,false]`; the derived `unexpected_count` is `1`; and the
BASIC-tier result reports `unexpected_percent = 25.0` (`1/4 × 100`). -/
theorem value_lengths_between_end_to_end :
    column_values_value_lengths ["a", "bb", "ccc", "dddd"] = [1, 2, 3, 4] ∧
    column_values_value_lengths_between [1, 2, 3, 4] (some 1) (some 3) false false =
      Except.ok [true, true, true, false] ∧
    unexpected_count_of [true, true, true, false] = 1 ∧
    (format_map_output { result_format := "BASIC", partial_unexpected_count := 20 }
        (some false) (some 4) (some 4) (some 1) (some [Val.str "dddd"]) none).map
        (fun r => r.unexpected_percent) = Except.ok (some (some 25)) := by
  refine ⟨by decide, by rfl, by decide, ?_⟩
  simp only [format_map_output, basic_result]
  norm_num [show ("BASIC" : String) ≠ "BOOLEAN_ONLY" from by decide,
    Option.some_ne_none, Except.map]

theorem fieldLe_refl {α : Type} (a : Option α) : fieldLe a a := fun _ => rfl

theorem fieldLe_none {α : Type} (b : Option α) : fieldLe none b :=
  fun h => absurd rfl h

theorem fieldLe_trans {α : Type} {a b c : Option α} (h1 : fieldLe a b)
    (h2 : fieldLe b c) : fieldLe a c := by
  intro ha
  have hb := h1 ha
  have hbne : b ≠ none := by rw [hb]; exact ha
  rw [h2 hbne, hb]

theorem MapResult.le_refl (r : MapResult) : r.le r :=
  ⟨rfl, fieldLe_refl _, fieldLe_refl _, fieldLe_refl _, fieldLe_refl _,
    fieldLe_refl _, fieldLe_refl _, fieldLe_refl _, fieldLe_refl _,
    fieldLe_refl _, fieldLe_refl _, fieldLe_refl _⟩

theorem MapResult.le_trans {x y z : MapResult} (h1 : x.le y) (h2 : y.le z) :
    x.le z := by
  obtain ⟨a1, a2, a3, a4, a5, a6, a7, a8, a9, a10, a11, a12⟩ := h1
  obtain ⟨b1, b2, b3, b4, b5, b6, b7, b8, b9, b10, b11, b12⟩ := h2
  exact ⟨a1.trans b1, fieldLe_trans a2 b2, fieldLe_trans a3 b3,
    fieldLe_trans a4 b4, fieldLe_trans a5 b5, fieldLe_trans a6 b6,
    fieldLe_trans a7 b7, fieldLe_trans a8 b8, fieldLe_trans a9 b9,
    fieldLe_trans a10 b10, fieldLe_trans a11 b11, fieldLe_trans a12 b12⟩

theorem boolean_only_result_le {s : Option Bool} {r : MapResult}
    (h : r.success = s) : MapResult.le { success := s } r :=
  ⟨h.symm, fieldLe_none _, fieldLe_none _, fieldLe_none _, fieldLe_none _,
    fieldLe_none _, fieldLe_none _, fieldLe_none _, fieldLe_none _,
    fieldLe_none _, fieldLe_none _, fieldLe_none _⟩

theorem le_summary_extend (cap : ℕ) (r : MapResult) (ul : List Val)
    (il : Option (List ℕ)) (h1 : r.partial_unexpected_index_list = none)
    (h2 : r.partial_unexpected_counts = none) :
    r.le (summary_extend cap r ul il) := by
  unfold summary_extend
  split
  · exact ⟨rfl, fieldLe_refl _, fieldLe_refl _, fieldLe_refl _, fieldLe_refl _,
      fieldLe_refl _, fieldLe_refl _, fieldLe_refl _, h1 ▸ fieldLe_none _,
      h2 ▸ fieldLe_none _, fieldLe_refl _, fieldLe_refl _⟩
  · exact MapResult.le_refl r

theorem le_complete_extend (r : MapResult) (ul : List Val)
    (il : Option (List ℕ)) (h1 : r.unexpected_list = none)
    (h2 : r.unexpected_index_list = none) :
    r.le (complete_extend r ul il) :=
  ⟨rfl, fieldLe_refl _, fieldLe_refl _, fieldLe_refl _, fieldLe_refl _,
    fieldLe_refl _, fieldLe_refl _, fieldLe_refl _, fieldLe_refl _,
    fieldLe_refl _, h1 ▸ fieldLe_none _, h2 ▸ fieldLe_none _⟩

theorem summary_extend_unexpected_list (cap : ℕ) (r : MapResult) (ul : List Val)
    (il : Option (List ℕ)) :
    (summary_extend cap r ul il).unexpected_list = r.unexpected_list ∧
    (summary_extend cap r ul il).unexpected_index_list = r.unexpected_index_list := by
  unfold summary_extend
  split <;> exact ⟨rfl, rfl⟩

theorem format_map_output_bo (cap : ℕ) (s : Option Bool) (ec nn uc : Option ℚ)
    (ul : Option (List Val)) (il : Option (List ℕ)) :
    format_map_output { result_format := "BOOLEAN_ONLY", partial_unexpected_count := cap }
      s ec nn uc ul il = Except.ok { success := s } := by
  unfold format_map_output
  simp

theorem format_map_output_ok_shape {name : String} (hbo : name ≠ "BOOLEAN_ONLY")
    {cap : ℕ} {s : Option Bool} {ec? nn uc : Option ℚ} {ul? : Option (List Val)}
    {il : Option (List ℕ)} {r : MapResult}
    (h : format_map_output { result_format := name, partial_unexpected_count := cap }
      s ec? nn uc ul? il = Except.ok r) :
    ∃ ec ul, ec? = some ec ∧ ul? = some ul ∧
      ((name = "BASIC" ∧ r = basic_result cap s ec nn uc ul) ∨
       (name = "SUMMARY" ∧
         r = summary_extend cap (basic_result cap s ec nn uc ul) ul il) ∨
       (name = "COMPLETE" ∧
         r = complete_extend (summary_extend cap (basic_result cap s ec nn uc ul) ul il)
           ul il)) := by
  unfold format_map_output at h
  rw [if_neg hbo] at h
  cases hec : ec? with
  | none => rw [hec] at h; exact absurd h (by simp)
  | some ec =>
    cases hul : ul? with
    | none => rw [hec, hul] at h; exact absurd h (by simp)
    | some ul =>
      rw [hec, hul] at h
      dsimp only at h
      split at h
      · exact absurd h (by simp)
      · split at h
        · injection h with h
          exact ⟨ec, ul, rfl, rfl, Or.inl ⟨by assumption, h.symm⟩⟩
        · split at h
          · injection h with h
            exact ⟨ec, ul, rfl, rfl, Or.inr (Or.inl ⟨by assumption, h.symm⟩)⟩
          · split at h
            · injection h with h
              exact ⟨ec, ul, rfl, rfl, Or.inr (Or.inr ⟨by assumption, h.symm⟩)⟩
            · exact absurd h (by simp)

theorem basic_le_summary_lemma (cap : ℕ) (s : Option Bool) (ec : ℚ)
    (nn uc : Option ℚ) (ul : List Val) (il : Option (List ℕ)) :
    (basic_result cap s ec nn uc ul).le
      (summary_extend cap (basic_result cap s ec nn uc ul) ul il) :=
  le_summary_extend _ _ _ _ (by simp [basic_result]) (by simp [basic_result])

theorem summary_le_complete_lemma (cap : ℕ) (s : Option Bool) (ec : ℚ)
    (nn uc : Option ℚ) (ul : List Val) (il : Option (List ℕ)) :
    (summary_extend cap (basic_result cap s ec nn uc ul) ul il).le
      (complete_extend (summary_extend cap (basic_result cap s ec nn uc ul) ul il)
        ul il) :=
  le_complete_extend _ _ _
    ((summary_extend_unexpected_list cap _ ul il).1.trans (by simp [basic_result]))
    ((summary_extend_unexpected_list cap _ ul il).2.trans (by simp [basic_result]))

theorem basic_le_complete_lemma (cap : ℕ) (s : Option Bool) (ec : ℚ)
    (nn uc : Option ℚ) (ul : List Val) (il : Option (List ℕ)) :
    (basic_result cap s ec nn uc ul).le
      (complete_extend (summary_extend cap (basic_result cap s ec nn uc ul) ul il)
        ul il) :=
  MapResult.le_trans (basic_le_summary_lemma cap s ec nn uc ul il)
    (summary_le_complete_lemma cap s ec nn uc ul il)

/-- C5: for tiers T1 ⊂ T2 in the order BOOLEAN_ONLY ⊂ BASIC ⊂ SUMMARY ⊂
COMPLETE and identical inputs (including the cap), every field present in the
T1 result is present in the T2 result with the same value. -/
theorem result_fields_monotone (t1 t2 : Tier) (h12 : t1.idx < t2.idx) (cap : ℕ)
    (s : Option Bool) (ec nn uc : Option ℚ) (ul : Option (List Val))
    (il : Option (List ℕ)) (r1 r2 : MapResult)
    (h1 : format_map_output { result_format := t1.name, partial_unexpected_count := cap }
      s ec nn uc ul il = Except.ok r1)
    (h2 : format_map_output { result_format := t2.name, partial_unexpected_count := cap }
      s ec nn uc ul il = Except.ok r2) :
    MapResult.le r1 r2 := by
  cases t1 with
  | boolean_only =>
    rw [show Tier.boolean_only.name = "BOOLEAN_ONLY" from rfl,
      format_map_output_bo] at h1
    injection h1 with h1
    subst h1
    exact boolean_only_result_le (format_map_output_success h2)
  | basic =>
    obtain ⟨ec1, ul1, hec1, hul1, hd1⟩ := format_map_output_ok_shape (by decide) h1
    rcases hd1 with ⟨_, hr1⟩ | ⟨hne, _⟩ | ⟨hne, _⟩
    · cases t2 with
      | boolean_only => exact absurd h12 (by decide)
      | basic => exact absurd h12 (by decide)
      | summary =>
        obtain ⟨ec2, ul2, hec2, hul2, hd2⟩ :=
          format_map_output_ok_shape (by decide) h2
        rcases hd2 with ⟨hne2, _⟩ | ⟨_, hr2⟩ | ⟨hne2, _⟩
        · exact absurd hne2 (by decide)
        · rw [hec1] at hec2
          injection hec2 with hec2
          rw [hul1] at hul2
          injection hul2 with hul2
          subst hec2
          subst hul2
          rw [hr1, hr2]
          exact basic_le_summary_lemma cap s ec1 nn uc ul1 il
        · exact absurd hne2 (by decide)
      | complete =>
        obtain ⟨ec2, ul2, hec2, hul2, hd2⟩ :=
          format_map_output_ok_shape (by decide) h2
        rcases hd2 with ⟨hne2, _⟩ | ⟨hne2, _⟩ | ⟨_, hr2⟩
        · exact absurd hne2 (by decide)
        · exact absurd hne2 (by decide)
        · rw [hec1] at hec2
          injection hec2 with hec2
          rw [hul1] at hul2
          injection hul2 with hul2
          subst hec2
          subst hul2
          rw [hr1, hr2]
          exact basic_le_complete_lemma cap s ec1 nn uc ul1 il
    · exact absurd hne (by decide)
    · exact absurd hne (by decide)
  | summary =>
    obtain ⟨ec1, ul1, hec1, hul1, hd1⟩ := format_map_output_ok_shape (by decide) h1
    rcases hd1 with ⟨hne, _⟩ | ⟨_, hr1⟩ | ⟨hne, _⟩
    · exact absurd hne (by decide)
    · cases t2 with
      | boolean_only => exact absurd h12 (by decide)
      | basic => exact absurd h12 (by decide)
      | summary => exact absurd h12 (by decide)
      | complete =>
        obtain ⟨ec2, ul2, hec2, hul2, hd2⟩ :=
          format_map_output_ok_shape (by decide) h2
        rcases hd2 with ⟨hne2, _⟩ | ⟨hne2, _⟩ | ⟨_, hr2⟩
        · exact absurd hne2 (by decide)
        · exact absurd hne2 (by decide)
        · rw [hec1] at hec2
          injection hec2 with hec2
          rw [hul1] at hul2
          injection hul2 with hul2
          subst hec2
          subst hul2
          rw [hr1, hr2]
          exact summary_le_complete_lemma cap s ec1 nn uc ul1 il
    · exact absurd hne (by decide)
  | complete =>
    cases t2 <;> exact absurd h12 (by decide)

/-- Witness for C5 at T1 = BASIC, T2 = SUMMARY with cap 0 and an empty
unexpected list. -/
theorem result_fields_monotone_witness :
    MapResult.le
      (basic_result 0 none 0 none none [])
      (summary_extend 0 (basic_result 0 none 0 none none []) [] none) := by
  have h1 : format_map_output { result_format := "BASIC", partial_unexpected_count := 0 }
      none (some 0) none none (some []) none =
      Except.ok (basic_result 0 none 0 none none []) := by
    unfold format_map_output
    rw [if_neg (by decide : ¬ ("BASIC" : String) = "BOOLEAN_ONLY")]
    dsimp only
    rw [if_neg (fun h => lt_irrefl (0 : ℚ) h.1), if_pos rfl]
  have h2 : format_map_output { result_format := "SUMMARY", partial_unexpected_count := 0 }
      none (some 0) none none (some []) none =
      Except.ok (summary_extend 0 (basic_result 0 none 0 none none []) [] none) := by
    unfold format_map_output
    rw [if_neg (by decide : ¬ ("SUMMARY" : String) = "BOOLEAN_ONLY")]
    dsimp only
    rw [if_neg (fun h => lt_irrefl (0 : ℚ) h.1),
      if_neg (by decide : ¬ ("SUMMARY" : String) = "BASIC"), if_pos rfl]
  exact result_fields_monotone Tier.basic Tier.summary (by decide) 0 none (some 0)
    none none (some []) none _ _ h1 h2

theorem mem_of_mem_firstOccursAux {x : Val} :
    ∀ {l seen : List Val}, x ∈ firstOccursAux l seen → x ∈ l
  | [], _, h => absurd h (List.not_mem_nil x)
  | v :: vs, seen, h => by
    unfold firstOccursAux at h
    split at h
    · exact List.mem_cons_of_mem v (mem_of_mem_firstOccursAux h)
    · rcases List.mem_cons.mp h with h | h
      · exact h ▸ List.mem_cons_self v vs
      · exact List.mem_cons_of_mem v (mem_of_mem_firstOccursAux h)

theorem not_mem_seen_of_mem_firstOccursAux {x : Val} :
    ∀ {l seen : List Val}, x ∈ firstOccursAux l seen → x ∉ seen
  | [], _, h => absurd h (List.not_mem_nil x)
  | v :: vs, seen, h => by
    unfold firstOccursAux at h
    split at h
    · exact not_mem_seen_of_mem_firstOccursAux h
    · rcases List.mem_cons.mp h with h | h
      · subst h
        next hv => exact hv
      · intro hx
        exact not_mem_seen_of_mem_firstOccursAux h (List.mem_cons_of_mem v hx)

theorem mem_firstOccursAux_of_mem {x : Val} :
    ∀ {l seen : List Val}, x ∈ l → x ∉ seen → x ∈ firstOccursAux l seen
  | [], _, hx, _ => absurd hx (List.not_mem_nil x)
  | v :: vs, seen, hx, hs => by
    unfold firstOccursAux
    split
    · next hv =>
      rcases List.mem_cons.mp hx with h | h
      · exact absurd (h ▸ hv) hs
      · exact mem_firstOccursAux_of_mem h hs
    · rcases List.mem_cons.mp hx with h | h
      · exact h ▸ List.mem_cons_self v _
      · by_cases hxv : x = v
        · exact hxv ▸ List.mem_cons_self v _
        · refine List.mem_cons_of_mem v (mem_firstOccursAux_of_mem h ?_)
          intro hmem
          rcases List.mem_cons.mp hmem with h' | h'
          · exact hxv h'
          · exact hs h'

theorem nodup_firstOccursAux : ∀ (l seen : List Val), (firstOccursAux l seen).Nodup
  | [], _ => List.nodup_nil
  | v :: vs, seen => by
    unfold firstOccursAux
    split
    · exact nodup_firstOccursAux vs seen
    · refine List.nodup_cons.mpr ⟨?_, nodup_firstOccursAux vs (v :: seen)⟩
      intro hv
      exact not_mem_seen_of_mem_firstOccursAux hv (List.mem_cons_self v seen)

theorem counterItems_mem {l : List Val} {p : Val × ℕ} (h : p ∈ counterItems l) :
    p.1 ∈ l ∧ p.2 = l.count p.1 := by
  unfold counterItems at h
  obtain ⟨v, hv, hp⟩ := List.mem_map.mp h
  subst hp
  exact ⟨mem_of_mem_firstOccursAux hv, rfl⟩

theorem counterItems_map_fst (l : List Val) :
    (counterItems l).map Prod.fst = firstOccursAux l [] := by
  unfold counterItems
  rw [List.map_map]
  exact List.map_congr_left (fun v _ => rfl) |>.trans (List.map_id _)

theorem counterItems_mem_of_mem {l : List Val} {v : Val} (h : v ∈ l) :
    (v, l.count v) ∈ counterItems l := by
  unfold counterItems
  exact List.mem_map.mpr ⟨v, mem_firstOccursAux_of_mem h (List.not_mem_nil v), rfl⟩

theorem keyLe_iff {x y : Val × ℕ} :
    keyLe x y ↔ y.2 ≤ x.2 ∧ (y.2 = x.2 → valLtB y.1 x.1 = false) := by
  unfold keyLe keyLtB
  rw [Bool.or_eq_false_iff, Bool.and_eq_false_iff]
  constructor
  · rintro ⟨h1, h2⟩
    refine ⟨by simpa using h1, fun heq => ?_⟩
    rcases h2 with h2 | h2
    · exact absurd heq (by simpa using h2)
    · exact h2
  · rintro ⟨h1, h2⟩
    refine ⟨by simpa using h1, ?_⟩
    by_cases heq : y.2 = x.2
    · exact Or.inr (h2 heq)
    · exact Or.inl (by simpa using heq)

theorem valLtB_asymm {a b : Val} (h : valLtB a b = true) : valLtB b a = false := by
  cases a with
  | int za =>
    cases b with
    | int zb =>
      simp only [valLtB, decide_eq_true_eq] at h
      simp only [valLtB, decide_eq_false_iff_not]
      omega
    | str s => simp [valLtB]
    | vlist l => simp [valLtB]
  | str sa =>
    cases b with
    | int z => simp [valLtB]
    | str sb =>
      simp only [valLtB, decide_eq_true_eq] at h
      simp only [valLtB, decide_eq_false_iff_not]
      exact lt_asymm h
    | vlist l => simp [valLtB]
  | vlist la => simp [valLtB] at h

theorem keyLe_total (x y : Val × ℕ) : keyLe x y ∨ keyLe y x := by
  rw [keyLe_iff, keyLe_iff]
  rcases Nat.lt_trichotomy x.2 y.2 with h | h | h
  · exact Or.inr ⟨Nat.le_of_lt h, fun heq => absurd heq.symm (Nat.ne_of_gt h)⟩
  · by_cases hv : valLtB y.1 x.1 = true
    · exact Or.inr ⟨Nat.le_of_eq h, fun _ => valLtB_asymm hv⟩
    · exact Or.inl ⟨Nat.le_of_eq h.symm, fun _ => Bool.eq_false_iff.mpr hv⟩
  · exact Or.inl ⟨Nat.le_of_lt h, fun heq => absurd heq.symm (Nat.ne_of_gt h)⟩

theorem valComparable_cases {a b : Val} (h : valComparable a b = true) :
    (∃ za zb, a = Val.int za ∧ b = Val.int zb) ∨
    (∃ sa sb, a = Val.str sa ∧ b = Val.str sb) := by
  cases a <;> cases b <;> simp_all [valComparable]

theorem keyLe_trans_of_comparable {a b c : Val × ℕ}
    (hba : b.2 = a.2 → b.1 ≠ a.1 → valComparable b.1 a.1 = true)
    (h1 : keyLe a b) (h2 : keyLe b c) : keyLe a c := by
  rw [keyLe_iff] at h1 h2 ⊢
  obtain ⟨hba2, hv1⟩ := h1
  obtain ⟨hcb2, hv2⟩ := h2
  refine ⟨Nat.le_trans hcb2 hba2, fun hca => ?_⟩
  have hbc : b.2 = c.2 := Nat.le_antisymm (hca ▸ hba2) hcb2
  have hab : b.2 = a.2 := Nat.le_antisymm hba2 (hca ▸ hcb2)
  by_contra hlt
  have hlt : valLtB c.1 a.1 = true := Bool.not_eq_false _ |>.mp hlt
  have hv1 := hv1 hab
  have hv2 := hv2 hbc.symm
  by_cases hbaq : b.1 = a.1
  · rw [hbaq] at hv2
    rw [hv2] at hlt
    simp at hlt
  · have hcomp := hba hab hbaq
    rcases valComparable_cases hcomp with ⟨zb, za, hb1, ha1⟩ | ⟨sb, sa, hb1, ha1⟩
    · rw [hb1, ha1] at hv1
      rw [hb1] at hv2
      rw [ha1] at hlt
      cases c1 : c.1 with
      | int zc =>
        rw [c1] at hv2 hlt
        simp only [valLtB, decide_eq_false_iff_not] at hv1 hv2
        simp only [valLtB, decide_eq_true_eq] at hlt
        omega
      | str sc =>
        rw [c1] at hlt
        simp [valLtB] at hlt
      | vlist lc =>
        rw [c1] at hlt
        simp [valLtB] at hlt
    · rw [hb1, ha1] at hv1
      rw [hb1] at hv2
      rw [ha1] at hlt
      cases c1 : c.1 with
      | int zc =>
        rw [c1] at hlt
        simp [valLtB] at hlt
      | str sc =>
        rw [c1] at hv2 hlt
        simp only [valLtB, decide_eq_false_iff_not] at hv1 hv2
        simp only [valLtB, decide_eq_true_eq] at hlt
        exact absurd hlt (not_lt.mpr (le_trans (not_lt.mp hv1) (not_lt.mp hv2)))
      | vlist lc =>
        rw [c1] at hlt
        simp [valLtB] at hlt

theorem anyIncomparableTie_false {l : List (Val × ℕ)}
    (h : anyIncomparableTie l = false) :
    ∀ x ∈ l, ∀ y ∈ l, x.2 = y.2 → x.1 ≠ y.1 → valComparable x.1 y.1 = true := by
  unfold anyIncomparableTie at h
  simp only [List.any_eq_false, List.any_eq_true, not_exists] at h
  intro x hx y hy hcount hne
  by_contra hcomp
  have hfalse : valComparable x.1 y.1 = false := Bool.eq_false_iff.mpr hcomp
  exact h x hx y ⟨hy, by simp [hcount, hne, hfalse]⟩

theorem pairwise_orderedInsertOn {α : Type} (R : α → α → Prop) [DecidableRel R]
    (S : List α) (htot : ∀ x y : α, R x y ∨ R y x)
    (htrans : ∀ x ∈ S, ∀ y ∈ S, ∀ z ∈ S, R x y → R y z → R x z) (a : α) :
    ∀ l : List α, a ∈ S → (∀ x ∈ l, x ∈ S) → l.Pairwise R →
      (List.orderedInsert R a l).Pairwise R
  | [], _, _, _ => List.pairwise_singleton R a
  | b :: t, ha, hl, hp => by
    unfold List.orderedInsert
    split
    · next hab =>
      refine List.pairwise_cons.mpr ⟨?_, hp⟩
      intro x hx
      rcases List.mem_cons.mp hx with hx | hx
      · exact hx ▸ hab
      · exact htrans a ha b (hl b (List.mem_cons_self b t)) x
          (hl x (List.mem_cons_of_mem b hx)) hab
          (List.rel_of_pairwise_cons hp hx)
    · next hab =>
      refine List.pairwise_cons.mpr ⟨?_, ?_⟩
      · intro x hx
        rcases (List.mem_orderedInsert R).mp hx with hx | hx
        · rw [hx]
          exact (htot a b).resolve_left hab
        · exact List.rel_of_pairwise_cons hp hx
      · exact pairwise_orderedInsertOn R S htot htrans a t ha
          (fun x hx => hl x (List.mem_cons_of_mem b hx))
          (List.Pairwise.of_cons hp)

theorem pairwise_insertionSortOn {α : Type} (R : α → α → Prop) [DecidableRel R]
    (S : List α) (htot : ∀ x y : α, R x y ∨ R y x)
    (htrans : ∀ x ∈ S, ∀ y ∈ S, ∀ z ∈ S, R x y → R y z → R x z) :
    ∀ l : List α, (∀ x ∈ l, x ∈ S) → (List.insertionSort R l).Pairwise R
  | [], _ => List.Pairwise.nil
  | b :: t, hl => by
    unfold List.insertionSort
    exact pairwise_orderedInsertOn R S htot htrans b (List.insertionSort R t)
      (hl b (List.mem_cons_self b t))
      (fun x hx => hl x (List.mem_cons_of_mem b ((List.mem_insertionSort R).mp hx)))
      (pairwise_insertionSortOn R S htot htrans t
        (fun x hx => hl x (List.mem_cons_of_mem b hx)))

/-- C8: at SUMMARY with cap 2 and unexpected list `[5,5,5,6,6,7]`,
`partial_unexpected_counts` is `[{value:5,count:3},{value:6,count:2}]` and the
third distinct value is excluded; in general every produced entry list is
ordered by count descending with ties broken by value ascending (`keyLe`),
truncated to the cap, holds distinct unexpected values with their exact
multiplicities, and only values at least as frequent as every excluded one;
and an unhashable value makes the block yield the single sentinel entry
instead of propagating the failure. -/
theorem partial_unexpected_counts_behaviour :
    ((format_map_output { result_format := "SUMMARY", partial_unexpected_count := 2 }
        (some false) (some 6) (some 6) (some 3)
        (some [Val.int 5, Val.int 5, Val.int 5, Val.int 6, Val.int 6, Val.int 7])
        none).map (fun r => r.partial_unexpected_counts) =
      Except.ok (some (PUC.entries [(Val.int 5, 3), (Val.int 6, 2)]))) ∧
    (∀ (l : List Val) (k : ℕ) (es : List (Val × ℕ)),
        partial_unexpected_counts_of l k = PUC.entries es →
        es.Pairwise keyLe ∧ es.length ≤ k ∧
        (∀ p ∈ es, p.1 ∈ l ∧ p.2 = l.count p.1) ∧
        (es.map Prod.fst).Nodup ∧
        (∀ v ∈ l, v ∉ es.map Prod.fst → ∀ p ∈ es, l.count v ≤ p.2)) ∧
    (∀ (l : List Val) (k : ℕ), l.all pyHashable = false →
        partial_unexpected_counts_of l k = PUC.sentinel) := by
  refine ⟨?_, ?_, ?_⟩
  · simp only [format_map_output, summary_extend, basic_result]
    norm_num [show ("SUMMARY" : String) ≠ "BOOLEAN_ONLY" from by decide,
      show ("SUMMARY" : String) ≠ "BASIC" from by decide, Option.some_ne_none,
      Except.map]
    decide
  · intro l k es h
    unfold partial_unexpected_counts_of at h
    split at h
    · split at h
      · exact absurd h (by simp)
      · next hTie =>
        injection h with h
        subst h
        have hcomp := anyIncomparableTie_false (Bool.not_eq_true _ |>.mp hTie)
        have htrans : ∀ x ∈ mostCommon l k, ∀ y ∈ mostCommon l k,
            ∀ z ∈ mostCommon l k, keyLe x y → keyLe y z → keyLe x z := by
          intro x hx y hy z hz h1 h2
          exact keyLe_trans_of_comparable
            (fun hc hne => hcomp y hy x hx hc hne) h1 h2
        refine ⟨?_, ?_, ?_, ?_, ?_⟩
        · exact pairwise_insertionSortOn keyLe (mostCommon l k) keyLe_total
            htrans (mostCommon l k) (fun x hx => hx)
        · rw [List.length_insertionSort]
          unfold mostCommon
          rw [List.length_take]
          exact min_le_left _ _
        · intro p hp
          have hp1 : p ∈ mostCommon l k := (List.mem_insertionSort keyLe).mp hp
          have hp2 : p ∈ List.insertionSort countGe (counterItems l) :=
            List.take_subset _ _ hp1
          have hp3 : p ∈ counterItems l :=
            (List.perm_insertionSort countGe _).mem_iff.mp hp2
          exact counterItems_mem hp3
        · have hnd0 : ((counterItems l).map Prod.fst).Nodup := by
            rw [counterItems_map_fst]
            exact nodup_firstOccursAux l []
          have hnd1 : ((List.insertionSort countGe (counterItems l)).map
              Prod.fst).Nodup :=
            ((List.perm_insertionSort countGe (counterItems l)).map
              Prod.fst).nodup_iff.mpr hnd0
          have hnd2 : ((mostCommon l k).map Prod.fst).Nodup :=
            List.Nodup.sublist
              (List.Sublist.map Prod.fst (List.take_sublist k _)) hnd1
          exact ((List.perm_insertionSort keyLe (mostCommon l k)).map
            Prod.fst).nodup_iff.mpr hnd2
        · intro v hv hnotin p hp
          have hsorted : List.Sorted countGe
              (List.insertionSort countGe (counterItems l)) :=
            List.sorted_insertionSort countGe (counterItems l)
          have hvc : (v, l.count v) ∈ List.insertionSort countGe (counterItems l) :=
            (List.perm_insertionSort countGe _).mem_iff.mpr
              (counterItems_mem_of_mem hv)
          have hp1 : p ∈ mostCommon l k := (List.mem_insertionSort keyLe).mp hp
          have hvnot : (v, l.count v) ∉ mostCommon l k := by
            intro hmem
            exact hnotin (List.mem_map.mpr
              ⟨(v, l.count v), (List.mem_insertionSort keyLe).mpr hmem, rfl⟩)
          have hvdrop : (v, l.count v) ∈
              (List.insertionSort countGe (counterItems l)).drop k := by
            have hsplit := (List.take_append_drop k
              (List.insertionSort countGe (counterItems l))) ▸ hvc
            rcases List.mem_append.mp hsplit with hmem | hmem
            · exact absurd hmem hvnot
            · exact hmem
          unfold mostCommon at hp1
          exact hsorted.rel_of_mem_take_of_mem_drop hp1 hvdrop
    · exact absurd h (by simp)
  · intro l k h
    unfold partial_unexpected_counts_of
    simp [h]

/-- Witness for C8's general clauses at `l = [5,5,5,6,6,7]`, `k = 2`,
`es = [(5,3),(6,2)]`. -/
theorem partial_unexpected_counts_behaviour_witness :
    List.Pairwise keyLe [(Val.int 5, 3), (Val.int 6, 2)] ∧
    ([(Val.int 5, 3), (Val.int 6, 2)] : List (Val × ℕ)).length ≤ 2 ∧
    (∀ p ∈ [(Val.int 5, 3), (Val.int 6, 2)],
      p.1 ∈ [Val.int 5, Val.int 5, Val.int 5, Val.int 6, Val.int 6, Val.int 7] ∧
      p.2 = [Val.int 5, Val.int 5, Val.int 5, Val.int 6, Val.int 6,
        Val.int 7].count p.1) ∧
    (([(Val.int 5, 3), (Val.int 6, 2)] : List (Val × ℕ)).map Prod.fst).Nodup ∧
    (∀ v ∈ [Val.int 5, Val.int 5, Val.int 5, Val.int 6, Val.int 6, Val.int 7],
      v ∉ ([(Val.int 5, 3), (Val.int 6, 2)] : List (Val × ℕ)).map Prod.fst →
      ∀ p ∈ [(Val.int 5, 3), (Val.int 6, 2)],
        [Val.int 5, Val.int 5, Val.int 5, Val.int 6, Val.int 6,
          Val.int 7].count v ≤ p.2) :=
  partial_unexpected_counts_behaviour.2.1
    [Val.int 5, Val.int 5, Val.int 5, Val.int 6, Val.int 6, Val.int 7] 2
    [(Val.int 5, 3), (Val.int 6, 2)] (by decide)
